import Mathlib

/-! Controller JNI adapter.

A shallow embedding of `client/modules/controller/android/cpp-adapter.cpp`:
the `SyncCallInvoker` class and the two JNI entry points
`Java_com_cartridge_controller_ControllerModule_nativeInstallRustCrate` and
`Java_com_cartridge_controller_ControllerModule_nativeCleanupRustCrate`.

Modelling conventions.

* A `jsi::Runtime*` is its address, a natural number; the null pointer is `0`.
  A `jsi::Runtime&` obtained by `*runtime` is modelled by the same address.
* C++ calls are state-passing functions `σ → Outcome σ α`.  `Outcome` records
  whether the call returned, left by an exception, ended in `std::terminate`,
  or never came back.
* `controller::installRustCrate` and `controller::cleanupRustCrate` are
  declared in `controller.h`, which is not part of the translated source; they
  are taken as a parameter (`Controller σ`) over an arbitrary state type `σ`.
* `__android_log_print` appends a line to the `logcat` component of `World`.
* The width of a pointer (and of `long`) depends on the Android ABI and is the
  parameter `ptrBits` (64 on arm64-v8a and x86_64, 32 on armeabi-v7a and x86).
-/

namespace ControllerAdapter

/-! ## Control-flow outcomes of C++ calls -/

/-- A C++ exception object in flight, identified by its `what()` text. -/
structure CppException where
  what : String
  deriving DecidableEq, Repr

/-- The ways a C++ call can end, together with the state it leaves behind:
normal return of a value, an exception leaving the callee, a call to
`std::terminate` (the process is gone), or a call that never
comes back. -/
inductive Outcome (σ α : Type) where
  | ret (value : α) (state : σ)
  | raise (e : CppException) (state : σ)
  | terminate (state : σ)
  | hang
  deriving DecidableEq, Repr

/-- Sequencing of two C++ statements: the continuation runs only when the
first call returned; every other outcome ends the enclosing function the same
way. -/
def Outcome.bind {σ α β : Type} (o : Outcome σ α) (k : α → σ → Outcome σ β) :
    Outcome σ β :=
  match o with
  | .ret a s => k a s
  | .raise e s => .raise e s
  | .terminate s => .terminate s
  | .hang => .hang

/-- The C++ `noexcept` specifier on a function: an exception that would leave
the function body calls `std::terminate` instead of propagating. -/
def noexcept {σ α : Type} (body : Outcome σ α) : Outcome σ α :=
  match body with
  | .raise _ s => .terminate s
  | o => o

/-! ## `react::CallInvoker` and `SyncCallInvoker` -/

/-- The type `react::CallFunc`, i.e. `std::function<void(jsi::Runtime&)>`: given the
runtime (its address) it runs against the state. -/
abbrev CallFunc (σ : Type) := Nat → σ → Outcome σ Unit

/-- The enumeration `react::SchedulerPriority` of `ReactCommon`. -/
inductive SchedulerPriority where
  | ImmediatePriority
  | UserBlockingPriority
  | NormalPriority
  | LowPriority
  | IdlePriority
  deriving DecidableEq, Repr

/-- The abstract interface `react::CallInvoker` as the extension sees it
through `std::shared_ptr<react::CallInvoker>`: the three virtual methods.
The overload `invokeAsync(SchedulerPriority, CallFunc&&)` is named
`invokeAsyncPriority`. -/
structure CallInvoker (σ : Type) where
  invokeAsync : CallFunc σ → σ → Outcome σ Unit
  invokeSync : CallFunc σ → σ → Outcome σ Unit
  invokeAsyncPriority : SchedulerPriority → CallFunc σ → σ → Outcome σ Unit

/-- The class `SyncCallInvoker`: its only member is `jsi::Runtime* runtime_`;
the constructor `SyncCallInvoker(rt)` stores `rt` in it. -/
structure SyncCallInvoker where
  runtime_ : Nat
  deriving DecidableEq, Repr

/-- The method
`void invokeAsync(react::CallFunc&& func) noexcept override`
with body `if (runtime_) func(*runtime_);`. -/
def SyncCallInvoker.invokeAsync {σ : Type} (self : SyncCallInvoker) (func : CallFunc σ)
    (s : σ) : Outcome σ Unit :=
  noexcept (if self.runtime_ ≠ 0 then func self.runtime_ s else .ret () s)

/-- The method
`void invokeSync(react::CallFunc&& func) override` (not `noexcept`)
with body `if (runtime_) func(*runtime_);`. -/
def SyncCallInvoker.invokeSync {σ : Type} (self : SyncCallInvoker) (func : CallFunc σ)
    (s : σ) : Outcome σ Unit :=
  if self.runtime_ ≠ 0 then func self.runtime_ s else .ret () s

/-- The method
`void invokeAsync(react::SchedulerPriority, react::CallFunc&& func) noexcept override`
with body `if (runtime_) func(*runtime_);`; the priority parameter is unnamed. -/
def SyncCallInvoker.invokeAsyncPriority {σ : Type} (self : SyncCallInvoker)
    (_priority : SchedulerPriority) (func : CallFunc σ) (s : σ) : Outcome σ Unit :=
  noexcept (if self.runtime_ ≠ 0 then func self.runtime_ s else .ret () s)

/-- The conversion of `std::shared_ptr<SyncCallInvoker>` to
`std::shared_ptr<react::CallInvoker>`: virtual dispatch reaches the three
overrides of `SyncCallInvoker`. -/
def SyncCallInvoker.toCallInvoker {σ : Type} (self : SyncCallInvoker) : CallInvoker σ where
  invokeAsync := self.invokeAsync
  invokeSync := self.invokeSync
  invokeAsyncPriority := self.invokeAsyncPriority

/-! ## The extension (`controller.h`) -/

/-- The two functions of namespace `controller` that the adapter calls.
Their bodies are not in the translated source, so they are arbitrary:
`installRustCrate(jsi::Runtime&, std::shared_ptr<react::CallInvoker>)` and
`cleanupRustCrate(jsi::Runtime&)`, each returning an integer that the caller
stores in a `uint8_t`. -/
structure Controller (σ : Type) where
  installRustCrate : Nat → CallInvoker σ → σ → Outcome σ Nat
  cleanupRustCrate : Nat → σ → Outcome σ Nat

/-! ## Logging -/

/-- One call of `__android_log_print(prio, tag, fmt, ...)`: the priority, tag,
format string and the variadic arguments. -/
structure LogLine where
  prio : Nat
  tag : String
  fmt : String
  args : List Int
  deriving DecidableEq, Repr

/-- The state the entry points run against: the Android log and the state of
the extension and the scripting runtime. -/
structure World (σ : Type) where
  logcat : List LogLine
  ext : σ
  deriving DecidableEq, Repr

/-- The constant `ANDROID_LOG_DEBUG` of `android/log.h`. -/
def ANDROID_LOG_DEBUG : Nat := 3

/-- The constant `ANDROID_LOG_ERROR` of `android/log.h`. -/
def ANDROID_LOG_ERROR : Nat := 6

/-- The source line `#define LOG_TAG "ControllerNative"`. -/
def LOG_TAG : String := "ControllerNative"

/-- The function `__android_log_print`: appends one line to the log. -/
def android_log_print {σ : Type} (prio : Nat) (tag fmt : String) (args : List Int)
    (w : World σ) : World σ :=
  { w with logcat := w.logcat ++ [{ prio := prio, tag := tag, fmt := fmt, args := args }] }

/-- The source line
`#define LOGD(...) __android_log_print(ANDROID_LOG_DEBUG, LOG_TAG, __VA_ARGS__)`. -/
def LOGD {σ : Type} (fmt : String) (args : List Int) (w : World σ) : World σ :=
  android_log_print ANDROID_LOG_DEBUG LOG_TAG fmt args w

/-- The source line
`#define LOGE(...) __android_log_print(ANDROID_LOG_ERROR, LOG_TAG, __VA_ARGS__)`. -/
def LOGE {σ : Type} (fmt : String) (args : List Int) (w : World σ) : World σ :=
  android_log_print ANDROID_LOG_ERROR LOG_TAG fmt args w

/-- A call into the extension or the scripting runtime from an entry point: it
acts on the `ext` component of the world and leaves the log alone. -/
def World.call {σ α : Type} (w : World σ) (body : σ → Outcome σ α) :
    Outcome (World σ) α :=
  match body w.ext with
  | .ret a s => .ret a { w with ext := s }
  | .raise e s => .raise e { w with ext := s }
  | .terminate s => .terminate { w with ext := s }
  | .hang => .hang

/-! ## Integer conversions -/

/-- The expression `reinterpret_cast<jsi::Runtime*>(jsiPtr)`: the address held
in the low `ptrBits` bits of the `jlong`. -/
def reinterpretCast (ptrBits : Nat) (jsiPtr : Int) : Nat :=
  (jsiPtr % (2 : Int) ^ ptrBits).toNat

/-- The expression `(long)jsiPtr`: `long` is as wide as a pointer, and signed. -/
def castLong (ptrBits : Nat) (jsiPtr : Int) : Int :=
  Int.bmod jsiPtr (2 ^ ptrBits)

/-- The constant `JNI_TRUE` of `jni.h`, as the boolean the host receives. -/
def JNI_TRUE : Bool := true

/-- The constant `JNI_FALSE` of `jni.h`, as the boolean the host receives. -/
def JNI_FALSE : Bool := false

/-! ## The JNI entry points -/

/-- The entry point
`Java_com_cartridge_controller_ControllerModule_nativeInstallRustCrate(env, thiz, jsiPtr)`.
The parameters `env` and `thiz` are not used by the body and are left out.
The function has no `try` block and is not `noexcept`.  The allocation in
`std::make_shared<SyncCallInvoker>(runtime)` is taken to succeed; the local
`uint8_t result` keeps the low eight bits of the value the routine returned. -/
def Java_com_cartridge_controller_ControllerModule_nativeInstallRustCrate {σ : Type}
    (ptrBits : Nat) (controller : Controller σ) (jsiPtr : Int) (w : World σ) :
    Outcome (World σ) Bool :=
  let w := LOGD "nativeInstallRustCrate called with jsiPtr: %ld" [castLong ptrBits jsiPtr] w
  let runtime := reinterpretCast ptrBits jsiPtr
  if runtime = 0 then
    let w := LOGE "Runtime pointer is null!" [] w
    .ret JNI_FALSE w
  else
    let w := LOGD "Creating SyncCallInvoker..." [] w
    let callInvoker := SyncCallInvoker.mk runtime
    let w := LOGD "Calling controller::installRustCrate..." [] w
    (w.call (controller.installRustCrate runtime callInvoker.toCallInvoker)).bind
      fun r w =>
        let result : Nat := r % 256
        let w := LOGD "installRustCrate returned: %d" [(result : Int)] w
        .ret (if result ≠ 0 then JNI_TRUE else JNI_FALSE) w

/-- The entry point
`Java_com_cartridge_controller_ControllerModule_nativeCleanupRustCrate(env, thiz, jsiPtr)`.
The parameters `env` and `thiz` are not used by the body and are left out.
The function has no `try` block and is not `noexcept`; the local
`uint8_t result` keeps the low eight bits of the value the routine returned. -/
def Java_com_cartridge_controller_ControllerModule_nativeCleanupRustCrate {σ : Type}
    (ptrBits : Nat) (controller : Controller σ) (jsiPtr : Int) (w : World σ) :
    Outcome (World σ) Bool :=
  let w := LOGD "nativeCleanupRustCrate called" [] w
  let runtime := reinterpretCast ptrBits jsiPtr
  if runtime = 0 then
    let w := LOGE "Runtime pointer is null!" [] w
    .ret JNI_FALSE w
  else
    (w.call (controller.cleanupRustCrate runtime)).bind
      fun r w =>
        let result : Nat := r % 256
        let w := LOGD "cleanupRustCrate returned: %d" [(result : Int)] w
        .ret (if result ≠ 0 then JNI_TRUE else JNI_FALSE) w

/-! ## Observations -/

/-- The outcome of an entry point as the host and the extension see it: the
same control-flow outcome, with the Android log dropped from the state. -/
def Outcome.observe {σ α : Type} (o : Outcome (World σ) α) : Outcome σ α :=
  match o with
  | .ret a w => .ret a w.ext
  | .raise e w => .raise e w.ext
  | .terminate w => .terminate w.ext
  | .hang => .hang

/-- The outcome with a function applied to the returned value, if any. -/
def Outcome.map {σ α β : Type} (f : α → β) (o : Outcome σ α) : Outcome σ β :=
  match o with
  | .ret a s => .ret (f a) s
  | .raise e s => .raise e s
  | .terminate s => .terminate s
  | .hang => .hang

/-! ## Test doubles

Recording closures and extensions, used to evaluate the adapter on concrete
inputs. -/

/-- The state of a recording extension: the runtimes each of its routines was
entered with, and the runtimes its closures were run against, in order. -/
structure Probe where
  installs : List Nat
  cleanups : List Nat
  closures : List Nat
  deriving DecidableEq, Repr

/-- The recording state before anything has happened. -/
def Probe.empty : Probe := { installs := [], cleanups := [], closures := [] }

/-- A closure that records the runtime it is run against and returns. -/
def recordClosure : CallFunc Probe :=
  fun rt s => .ret () { s with closures := s.closures ++ [rt] }

/-- A closure that records the runtime it is run against and then throws. -/
def throwingClosure : CallFunc Probe :=
  fun rt s => .raise { what := "closure failed" } { s with closures := s.closures ++ [rt] }

/-- An extension that records every entry into its routines and answers
`status`; its install routine submits `recordClosure` once through each of the
three methods of the invoker it was given. -/
def probeController (status : Nat) : Controller Probe where
  installRustCrate rt inv s :=
    (inv.invokeAsync recordClosure { s with installs := s.installs ++ [rt] }).bind fun _ s =>
    (inv.invokeSync recordClosure s).bind fun _ s =>
    (inv.invokeAsyncPriority .NormalPriority recordClosure s).bind fun _ s =>
    .ret status s
  cleanupRustCrate rt s := .ret status { s with cleanups := s.cleanups ++ [rt] }

/-- An extension whose routines record the entry and then throw. -/
def throwingController : Controller Probe where
  installRustCrate rt _ s :=
    .raise { what := "install failed" } { s with installs := s.installs ++ [rt] }
  cleanupRustCrate rt s :=
    .raise { what := "cleanup failed" } { s with cleanups := s.cleanups ++ [rt] }

/-! ## Auxiliary facts -/

theorem castLong_zero (ptrBits : Nat) : castLong ptrBits 0 = 0 := by
  have hpos : 0 < 2 ^ ptrBits := Nat.pow_pos (by decide)
  simp only [castLong, Int.bmod, Int.zero_emod]
  rw [if_pos (by omega)]

theorem reinterpretCast_zero (ptrBits : Nat) : reinterpretCast ptrBits 0 = 0 := by
  simp [reinterpretCast]

/-! ## Null handles -/

/-- C1: with `jsiPtr = 0` the install entry point returns `JNI_FALSE`, whatever
the extension is; the state of the extension and the runtime is left exactly
as it was (no routine entered, no closure run) and only the two log lines of
the null branch are written. -/
theorem install_null_handle {σ : Type} (ptrBits : Nat) (controller : Controller σ)
    (w : World σ) :
    Java_com_cartridge_controller_ControllerModule_nativeInstallRustCrate ptrBits controller 0 w
      = Outcome.ret false
          { logcat := w.logcat ++
              [{ prio := ANDROID_LOG_DEBUG, tag := LOG_TAG,
                 fmt := "nativeInstallRustCrate called with jsiPtr: %ld", args := [0] },
               { prio := ANDROID_LOG_ERROR, tag := LOG_TAG,
                 fmt := "Runtime pointer is null!", args := [] }],
            ext := w.ext } := by
  simp [Java_com_cartridge_controller_ControllerModule_nativeInstallRustCrate,
    reinterpretCast_zero, castLong_zero, LOGD, LOGE, android_log_print, JNI_FALSE]

/-- C2: with `jsiPtr = 0` the cleanup entry point returns `JNI_FALSE`, whatever
the extension is; the state of the extension and the runtime is left exactly
as it was (the teardown routine is not entered) and only the two log lines of
the null branch are written. -/
theorem cleanup_null_handle {σ : Type} (ptrBits : Nat) (controller : Controller σ)
    (w : World σ) :
    Java_com_cartridge_controller_ControllerModule_nativeCleanupRustCrate ptrBits controller 0 w
      = Outcome.ret false
          { logcat := w.logcat ++
              [{ prio := ANDROID_LOG_DEBUG, tag := LOG_TAG,
                 fmt := "nativeCleanupRustCrate called", args := [] },
               { prio := ANDROID_LOG_ERROR, tag := LOG_TAG,
                 fmt := "Runtime pointer is null!", args := [] }],
            ext := w.ext } := by
  simp [Java_com_cartridge_controller_ControllerModule_nativeCleanupRustCrate,
    reinterpretCast_zero, LOGD, LOGE, android_log_print, JNI_FALSE]

/-! ## Delegation on a non-null handle -/

/-- C3: on a non-null runtime pointer the install entry point is one run of
the extension's install routine, from the state the entry point was called
in, on that runtime and a `SyncCallInvoker` bound to it.  When the routine
returns `r`, the entry point returns `true` exactly when the byte `r % 256` is
non-zero, in the state the routine left. -/
theorem install_delegates {σ : Type} (ptrBits : Nat) (controller : Controller σ)
    (jsiPtr : Int) (w : World σ) (h : reinterpretCast ptrBits jsiPtr ≠ 0) :
    Java_com_cartridge_controller_ControllerModule_nativeInstallRustCrate ptrBits controller
        jsiPtr w
      = match controller.installRustCrate (reinterpretCast ptrBits jsiPtr)
            (SyncCallInvoker.mk (reinterpretCast ptrBits jsiPtr)).toCallInvoker w.ext with
        | .ret r s =>
            .ret (decide (r % 256 ≠ 0))
              { logcat := w.logcat ++
                  [{ prio := ANDROID_LOG_DEBUG, tag := LOG_TAG,
                     fmt := "nativeInstallRustCrate called with jsiPtr: %ld",
                     args := [castLong ptrBits jsiPtr] },
                   { prio := ANDROID_LOG_DEBUG, tag := LOG_TAG,
                     fmt := "Creating SyncCallInvoker...", args := [] },
                   { prio := ANDROID_LOG_DEBUG, tag := LOG_TAG,
                     fmt := "Calling controller::installRustCrate...", args := [] },
                   { prio := ANDROID_LOG_DEBUG, tag := LOG_TAG,
                     fmt := "installRustCrate returned: %d", args := [((r % 256 : Nat) : Int)] }],
                ext := s }
        | .raise e s =>
            .raise e
              { logcat := w.logcat ++
                  [{ prio := ANDROID_LOG_DEBUG, tag := LOG_TAG,
                     fmt := "nativeInstallRustCrate called with jsiPtr: %ld",
                     args := [castLong ptrBits jsiPtr] },
                   { prio := ANDROID_LOG_DEBUG, tag := LOG_TAG,
                     fmt := "Creating SyncCallInvoker...", args := [] },
                   { prio := ANDROID_LOG_DEBUG, tag := LOG_TAG,
                     fmt := "Calling controller::installRustCrate...", args := [] }],
                ext := s }
        | .terminate s =>
            .terminate
              { logcat := w.logcat ++
                  [{ prio := ANDROID_LOG_DEBUG, tag := LOG_TAG,
                     fmt := "nativeInstallRustCrate called with jsiPtr: %ld",
                     args := [castLong ptrBits jsiPtr] },
                   { prio := ANDROID_LOG_DEBUG, tag := LOG_TAG,
                     fmt := "Creating SyncCallInvoker...", args := [] },
                   { prio := ANDROID_LOG_DEBUG, tag := LOG_TAG,
                     fmt := "Calling controller::installRustCrate...", args := [] }],
                ext := s }
        | .hang => .hang := by
  simp only [Java_com_cartridge_controller_ControllerModule_nativeInstallRustCrate, if_neg h,
    World.call, LOGD, android_log_print, JNI_TRUE, JNI_FALSE]
  cases controller.installRustCrate (reinterpretCast ptrBits jsiPtr)
      (SyncCallInvoker.mk (reinterpretCast ptrBits jsiPtr)).toCallInvoker w.ext <;>
    simp [Outcome.bind]

/-- Witness for C3: a recording extension answering `1`, installed on the
runtime at address `4096`, is entered once with that runtime and the entry
point returns `true`. -/
theorem install_delegates_witness :
    reinterpretCast 64 4096 ≠ 0 ∧
    Java_com_cartridge_controller_ControllerModule_nativeInstallRustCrate 64 (probeController 1)
        4096 { logcat := [], ext := Probe.empty }
      = Outcome.ret true
          { logcat :=
              [{ prio := 3, tag := "ControllerNative",
                 fmt := "nativeInstallRustCrate called with jsiPtr: %ld", args := [4096] },
               { prio := 3, tag := "ControllerNative",
                 fmt := "Creating SyncCallInvoker...", args := [] },
               { prio := 3, tag := "ControllerNative",
                 fmt := "Calling controller::installRustCrate...", args := [] },
               { prio := 3, tag := "ControllerNative",
                 fmt := "installRustCrate returned: %d", args := [1] }],
            ext := { installs := [4096], cleanups := [], closures := [4096, 4096, 4096] } } :=
  ⟨by decide,
   (install_delegates 64 (probeController 1) 4096 { logcat := [], ext := Probe.empty }
      (by decide)).trans (by rfl)⟩

/-- C4: on a non-null runtime pointer the cleanup entry point is one run of
the extension's teardown routine on that runtime, from the state the entry
point was called in; when the routine returns `r` the entry point returns
`true` exactly when the byte `r % 256` is non-zero.  The world `w` is
arbitrary, so nothing is assumed about earlier calls; in particular the same
holds in any world that an earlier install call (on any pointer, with any
result) returned in. -/
theorem cleanup_delegates {σ : Type} (ptrBits : Nat) (controller : Controller σ)
    (jsiPtr : Int) (w : World σ) (h : reinterpretCast ptrBits jsiPtr ≠ 0) :
    (Java_com_cartridge_controller_ControllerModule_nativeCleanupRustCrate ptrBits controller
        jsiPtr w
      = match controller.cleanupRustCrate (reinterpretCast ptrBits jsiPtr) w.ext with
        | .ret r s =>
            .ret (decide (r % 256 ≠ 0))
              { logcat := w.logcat ++
                  [{ prio := ANDROID_LOG_DEBUG, tag := LOG_TAG,
                     fmt := "nativeCleanupRustCrate called", args := [] },
                   { prio := ANDROID_LOG_DEBUG, tag := LOG_TAG,
                     fmt := "cleanupRustCrate returned: %d", args := [((r % 256 : Nat) : Int)] }],
                ext := s }
        | .raise e s =>
            .raise e
              { logcat := w.logcat ++
                  [{ prio := ANDROID_LOG_DEBUG, tag := LOG_TAG,
                     fmt := "nativeCleanupRustCrate called", args := [] }],
                ext := s }
        | .terminate s =>
            .terminate
              { logcat := w.logcat ++
                  [{ prio := ANDROID_LOG_DEBUG, tag := LOG_TAG,
                     fmt := "nativeCleanupRustCrate called", args := [] }],
                ext := s }
        | .hang => .hang) ∧
    (∀ (installPtr : Int) (before : World σ) (installed : Bool) (r : Nat) (s : σ),
      Java_com_cartridge_controller_ControllerModule_nativeInstallRustCrate ptrBits controller
          installPtr before = .ret installed w →
      controller.cleanupRustCrate (reinterpretCast ptrBits jsiPtr) w.ext = .ret r s →
      ∃ after : World σ,
        Java_com_cartridge_controller_ControllerModule_nativeCleanupRustCrate ptrBits controller
            jsiPtr w = .ret (decide (r % 256 ≠ 0)) after ∧ after.ext = s) := by
  have main :
      Java_com_cartridge_controller_ControllerModule_nativeCleanupRustCrate ptrBits controller
          jsiPtr w
        = match controller.cleanupRustCrate (reinterpretCast ptrBits jsiPtr) w.ext with
          | .ret r s =>
              .ret (decide (r % 256 ≠ 0))
                { logcat := w.logcat ++
                    [{ prio := ANDROID_LOG_DEBUG, tag := LOG_TAG,
                       fmt := "nativeCleanupRustCrate called", args := [] },
                     { prio := ANDROID_LOG_DEBUG, tag := LOG_TAG,
                       fmt := "cleanupRustCrate returned: %d",
                       args := [((r % 256 : Nat) : Int)] }],
                  ext := s }
          | .raise e s =>
              .raise e
                { logcat := w.logcat ++
                    [{ prio := ANDROID_LOG_DEBUG, tag := LOG_TAG,
                       fmt := "nativeCleanupRustCrate called", args := [] }],
                  ext := s }
          | .terminate s =>
              .terminate
                { logcat := w.logcat ++
                    [{ prio := ANDROID_LOG_DEBUG, tag := LOG_TAG,
                       fmt := "nativeCleanupRustCrate called", args := [] }],
                  ext := s }
          | .hang => .hang := by
    simp only [Java_com_cartridge_controller_ControllerModule_nativeCleanupRustCrate, if_neg h,
      World.call, LOGD, android_log_print, JNI_TRUE, JNI_FALSE]
    cases controller.cleanupRustCrate (reinterpretCast ptrBits jsiPtr) w.ext <;>
      simp [Outcome.bind]
  refine ⟨main, ?_⟩
  intro _ _ _ r s _ hr
  rw [main, hr]
  exact ⟨_, rfl, rfl⟩

/-- Witness for C4: in the world left by an install that failed (a recording
extension answering `0`), cleanup on the runtime at address `4096` enters the
teardown routine once and returns `false`. -/
theorem cleanup_delegates_witness :
    reinterpretCast 64 4096 ≠ 0 ∧
    ∃ after : World Probe,
      Java_com_cartridge_controller_ControllerModule_nativeCleanupRustCrate 64
          (probeController 0) 4096
          { logcat :=
              [{ prio := 3, tag := "ControllerNative",
                 fmt := "nativeInstallRustCrate called with jsiPtr: %ld", args := [4096] },
               { prio := 3, tag := "ControllerNative",
                 fmt := "Creating SyncCallInvoker...", args := [] },
               { prio := 3, tag := "ControllerNative",
                 fmt := "Calling controller::installRustCrate...", args := [] },
               { prio := 3, tag := "ControllerNative",
                 fmt := "installRustCrate returned: %d", args := [0] }],
            ext := { installs := [4096], cleanups := [], closures := [4096, 4096, 4096] } }
        = Outcome.ret false after ∧
      after.ext = { installs := [4096], cleanups := [4096], closures := [4096, 4096, 4096] } :=
  ⟨by decide,
   (cleanup_delegates 64 (probeController 0) 4096 _ (by decide)).2 4096
      { logcat := [], ext := Probe.empty } false 0 _ (by rfl) (by rfl)⟩

/-! ## The synchronous invoker -/

/-- C5: on an invoker bound to a non-null runtime, `invokeAsync func` is one
run of `func` on that runtime from the current state, completed inside the
call: the call returns exactly when `func` returns, and then in the state
`func` left. -/
theorem invokeAsync_runs_closure {σ : Type} (rt : Nat) (h : rt ≠ 0) (func : CallFunc σ)
    (s : σ) :
    ((SyncCallInvoker.mk rt).invokeAsync func s
      = match func rt s with
        | .ret u s1 => .ret u s1
        | .raise _ s1 => .terminate s1
        | .terminate s1 => .terminate s1
        | .hang => .hang) ∧
    (∀ s1 : σ, (SyncCallInvoker.mk rt).invokeAsync func s = .ret () s1 ↔
      func rt s = .ret () s1) := by
  have main : (SyncCallInvoker.mk rt).invokeAsync func s
      = match func rt s with
        | .ret u s1 => .ret u s1
        | .raise _ s1 => .terminate s1
        | .terminate s1 => .terminate s1
        | .hang => .hang := by
    simp only [SyncCallInvoker.invokeAsync, if_pos h]
    cases func rt s <;> rfl
  refine ⟨main, fun s1 => ?_⟩
  rw [main]
  cases func rt s <;> simp

/-- Witness for C5: a recording closure submitted to an invoker bound to the
runtime at address `7` has run once, against `7`, when the call returns. -/
theorem invokeAsync_runs_closure_witness :
    (7 : Nat) ≠ 0 ∧
    (SyncCallInvoker.mk 7).invokeAsync recordClosure Probe.empty
      = Outcome.ret () { installs := [], cleanups := [], closures := [7] } :=
  ⟨by decide, (invokeAsync_runs_closure 7 (by decide) recordClosure Probe.empty).1.trans (by rfl)⟩

/-- C6: on an invoker bound to the null pointer, `invokeAsync func` returns
normally in the unchanged state, whatever `func` is: the closure is not run. -/
theorem invokeAsync_null_skips {σ : Type} (func : CallFunc σ) (s : σ) :
    (SyncCallInvoker.mk 0).invokeAsync func s = Outcome.ret () s := by
  simp [SyncCallInvoker.invokeAsync, noexcept]

/-! ## The three submission methods compared -/

/-- C7, counterexample: on an invoker bound to the runtime at address `7`, a
closure that throws leaves `invokeSync` as an exception, while `invokeAsync`
ends in `std::terminate`; the two calls do not have the same outcome. -/
theorem invokeSync_differs_on_throw :
    (SyncCallInvoker.mk 7).invokeSync throwingClosure Probe.empty
      = Outcome.raise { what := "closure failed" }
          { installs := [], cleanups := [], closures := [7] } ∧
    (SyncCallInvoker.mk 7).invokeAsync throwingClosure Probe.empty
      = Outcome.terminate { installs := [], cleanups := [], closures := [7] } ∧
    (SyncCallInvoker.mk 7).invokeSync throwingClosure Probe.empty
      ≠ (SyncCallInvoker.mk 7).invokeAsync throwingClosure Probe.empty := by
  refine ⟨by rfl, by rfl, by decide⟩

/-- C7, amended: for every invoker, closure and priority,
`invokeAsync(priority, func)` is `invokeAsync(func)`, and `invokeAsync(func)`
is `invokeSync(func)` behind a `noexcept` boundary.  `invokeSync(func)` and
`invokeAsync(func)` coincide whenever the invoker is bound to null or the
closure does not throw; when the closure throws on a non-null runtime,
`invokeSync` lets the exception through and `invokeAsync` terminates. -/
theorem invoke_variants_agree {σ : Type} (self : SyncCallInvoker) (func : CallFunc σ)
    (s : σ) (priority : SchedulerPriority) :
    self.invokeAsyncPriority priority func s = self.invokeAsync func s ∧
    self.invokeAsync func s = noexcept (self.invokeSync func s) ∧
    ((self.runtime_ = 0 ∨ ∀ e s1, func self.runtime_ s ≠ .raise e s1) →
      self.invokeSync func s = self.invokeAsync func s) ∧
    (∀ e s1, self.runtime_ ≠ 0 → func self.runtime_ s = .raise e s1 →
      self.invokeSync func s = .raise e s1 ∧ self.invokeAsync func s = .terminate s1) := by
  refine ⟨rfl, rfl, ?_, ?_⟩
  · intro hcase
    simp only [SyncCallInvoker.invokeSync, SyncCallInvoker.invokeAsync]
    rcases hcase with h0 | hno
    · simp [h0, noexcept]
    · by_cases h0 : self.runtime_ = 0
      · simp [h0, noexcept]
      · simp only [ne_eq, h0, not_false_eq_true, if_true]
        cases hf : func self.runtime_ s with
        | raise e s1 => exact absurd hf (hno e s1)
        | ret u s1 => rfl
        | terminate s1 => rfl
        | hang => rfl
  · intro e s1 h0 hf
    simp [SyncCallInvoker.invokeSync, SyncCallInvoker.invokeAsync, h0, hf, noexcept]

/-- Witness for C7 (amended): a recording closure, which does not throw, has
the same outcome through `invokeSync` and `invokeAsync` on the runtime at
address `7`. -/
theorem invoke_variants_agree_witness :
    (SyncCallInvoker.mk 7).invokeSync recordClosure Probe.empty
      = (SyncCallInvoker.mk 7).invokeAsync recordClosure Probe.empty :=
  (invoke_variants_agree (SyncCallInvoker.mk 7) recordClosure Probe.empty
      SchedulerPriority.LowPriority).2.2.1
    (Or.inr (by intro e s1 hf; exact Outcome.noConfusion hf))

/-! ## Exceptions at the boundaries -/

/-- C8, counterexample: with an extension whose routines throw, install and
cleanup on the runtime at address `4096` do not return a boolean: the
exception leaves the entry point. -/
theorem entry_points_let_exceptions_through :
    Java_com_cartridge_controller_ControllerModule_nativeInstallRustCrate 64 throwingController
        4096 { logcat := [], ext := Probe.empty }
      = Outcome.raise { what := "install failed" }
          { logcat :=
              [{ prio := 3, tag := "ControllerNative",
                 fmt := "nativeInstallRustCrate called with jsiPtr: %ld", args := [4096] },
               { prio := 3, tag := "ControllerNative",
                 fmt := "Creating SyncCallInvoker...", args := [] },
               { prio := 3, tag := "ControllerNative",
                 fmt := "Calling controller::installRustCrate...", args := [] }],
            ext := { installs := [4096], cleanups := [], closures := [] } } ∧
    Java_com_cartridge_controller_ControllerModule_nativeCleanupRustCrate 64 throwingController
        4096 { logcat := [], ext := Probe.empty }
      = Outcome.raise { what := "cleanup failed" }
          { logcat :=
              [{ prio := 3, tag := "ControllerNative",
                 fmt := "nativeCleanupRustCrate called", args := [] }],
            ext := { installs := [], cleanups := [4096], closures := [] } } := by
  refine ⟨by rfl, by rfl⟩

/-- C8, amended: with a null pointer install and cleanup return `false` and
leave the extension untouched; with a non-null pointer, whenever the
extension's routine returns, they return its result byte as a boolean.  An
exception thrown by the extension's routine is not caught: install (cleanup)
is left by an exception `e` exactly when the pointer is non-null and the
extension's install (teardown) routine threw `e`. -/
theorem entry_points_outcomes {σ : Type} (ptrBits : Nat) (controller : Controller σ)
    (jsiPtr : Int) (w : World σ) :
    (reinterpretCast ptrBits jsiPtr = 0 →
      (∃ w1, Java_com_cartridge_controller_ControllerModule_nativeInstallRustCrate ptrBits
          controller jsiPtr w = .ret false w1 ∧ w1.ext = w.ext) ∧
      (∃ w1, Java_com_cartridge_controller_ControllerModule_nativeCleanupRustCrate ptrBits
          controller jsiPtr w = .ret false w1 ∧ w1.ext = w.ext)) ∧
    (reinterpretCast ptrBits jsiPtr ≠ 0 → ∀ r s,
      controller.installRustCrate (reinterpretCast ptrBits jsiPtr)
          (SyncCallInvoker.mk (reinterpretCast ptrBits jsiPtr)).toCallInvoker w.ext = .ret r s →
      ∃ w1, Java_com_cartridge_controller_ControllerModule_nativeInstallRustCrate ptrBits
          controller jsiPtr w = .ret (decide (r % 256 ≠ 0)) w1 ∧ w1.ext = s) ∧
    (reinterpretCast ptrBits jsiPtr ≠ 0 → ∀ r s,
      controller.cleanupRustCrate (reinterpretCast ptrBits jsiPtr) w.ext = .ret r s →
      ∃ w1, Java_com_cartridge_controller_ControllerModule_nativeCleanupRustCrate ptrBits
          controller jsiPtr w = .ret (decide (r % 256 ≠ 0)) w1 ∧ w1.ext = s) ∧
    (∀ e s,
      (∃ w1, Java_com_cartridge_controller_ControllerModule_nativeInstallRustCrate ptrBits
          controller jsiPtr w = .raise e w1 ∧ w1.ext = s) ↔
        (reinterpretCast ptrBits jsiPtr ≠ 0 ∧
          controller.installRustCrate (reinterpretCast ptrBits jsiPtr)
            (SyncCallInvoker.mk (reinterpretCast ptrBits jsiPtr)).toCallInvoker w.ext
              = .raise e s)) ∧
    (∀ e s,
      (∃ w1, Java_com_cartridge_controller_ControllerModule_nativeCleanupRustCrate ptrBits
          controller jsiPtr w = .raise e w1 ∧ w1.ext = s) ↔
        (reinterpretCast ptrBits jsiPtr ≠ 0 ∧
          controller.cleanupRustCrate (reinterpretCast ptrBits jsiPtr) w.ext = .raise e s)) := by
  by_cases h : reinterpretCast ptrBits jsiPtr = 0
  · simp [Java_com_cartridge_controller_ControllerModule_nativeInstallRustCrate,
      Java_com_cartridge_controller_ControllerModule_nativeCleanupRustCrate, h, LOGD, LOGE,
      android_log_print, JNI_FALSE]
  · simp only [Java_com_cartridge_controller_ControllerModule_nativeInstallRustCrate,
      Java_com_cartridge_controller_ControllerModule_nativeCleanupRustCrate, if_neg h,
      World.call, LOGD, android_log_print, JNI_TRUE, JNI_FALSE]
    refine ⟨fun h0 => absurd h0 h, ?_, ?_, ?_, ?_⟩
    · intro _ r s hr
      simp [hr, Outcome.bind]
    · intro _ r s hr
      simp [hr, Outcome.bind]
    · intro e s
      cases controller.installRustCrate (reinterpretCast ptrBits jsiPtr)
          (SyncCallInvoker.mk (reinterpretCast ptrBits jsiPtr)).toCallInvoker w.ext <;>
        simp [Outcome.bind, h]
      constructor
      · rintro ⟨w1, ⟨he, hw⟩, hs⟩
        subst hw
        exact ⟨he, hs⟩
      · rintro ⟨he, hs⟩
        exact ⟨_, ⟨he, rfl⟩, hs⟩
    · intro e s
      cases controller.cleanupRustCrate (reinterpretCast ptrBits jsiPtr) w.ext <;>
        simp [Outcome.bind, h]
      constructor
      · rintro ⟨w1, ⟨he, hw⟩, hs⟩
        subst hw
        exact ⟨he, hs⟩
      · rintro ⟨he, hs⟩
        exact ⟨_, ⟨he, rfl⟩, hs⟩

/-- Witness for C8 (amended): a recording extension answering `0` makes
install on the runtime at address `4096` return `false`, and the throwing
extension makes cleanup leave by its exception. -/
theorem entry_points_outcomes_witness :
    (∃ w1, Java_com_cartridge_controller_ControllerModule_nativeInstallRustCrate 64
        (probeController 0) 4096 { logcat := [], ext := Probe.empty }
          = Outcome.ret (decide (0 % 256 ≠ 0)) w1 ∧
        w1.ext = { installs := [4096], cleanups := [], closures := [4096, 4096, 4096] }) ∧
    (∃ w1, Java_com_cartridge_controller_ControllerModule_nativeCleanupRustCrate 64
        throwingController 4096 { logcat := [], ext := Probe.empty }
          = Outcome.raise { what := "cleanup failed" } w1 ∧
        w1.ext = { installs := [], cleanups := [4096], closures := [] }) :=
  ⟨(entry_points_outcomes 64 (probeController 0) 4096
      { logcat := [], ext := Probe.empty }).2.1 (by decide) 0 _ (by rfl),
   ((entry_points_outcomes 64 throwingController 4096
      { logcat := [], ext := Probe.empty }).2.2.2.2 _ _).mpr ⟨by decide, by rfl⟩⟩

/-- C9, counterexample: on an invoker bound to the runtime at address `7`,
`invokeAsync` of a closure that throws does not return to its caller: it ends
in `std::terminate`. -/
theorem invokeAsync_terminates_on_throw :
    (SyncCallInvoker.mk 7).invokeAsync throwingClosure Probe.empty
      = Outcome.terminate { installs := [], cleanups := [], closures := [7] } ∧
    ∀ s1, (SyncCallInvoker.mk 7).invokeAsync throwingClosure Probe.empty ≠ Outcome.ret () s1 := by
  refine ⟨by rfl, fun s1 hret => ?_⟩
  have hterm : (SyncCallInvoker.mk 7).invokeAsync throwingClosure Probe.empty
      = Outcome.terminate { installs := [], cleanups := [], closures := [7] } := by rfl
  rw [hterm] at hret
  exact Outcome.noConfusion hret

/-- C9, amended: for every invoker and closure, no exception leaves
`invokeAsync`.  The call returns normally when the invoker is bound to null
(in the unchanged state) and when the closure returns (in the state the
closure left); when the closure throws on a non-null runtime the call does not
return: it ends in `std::terminate`. -/
theorem invokeAsync_never_throws {σ : Type} (self : SyncCallInvoker) (func : CallFunc σ)
    (s : σ) :
    (∀ e s1, self.invokeAsync func s ≠ .raise e s1) ∧
    (self.runtime_ = 0 → self.invokeAsync func s = .ret () s) ∧
    (∀ s1, self.runtime_ ≠ 0 → func self.runtime_ s = .ret () s1 →
      self.invokeAsync func s = .ret () s1) ∧
    (∀ e s1, self.runtime_ ≠ 0 → func self.runtime_ s = .raise e s1 →
      self.invokeAsync func s = .terminate s1) := by
  refine ⟨?_, ?_, ?_, ?_⟩
  · intro e s1
    simp only [SyncCallInvoker.invokeAsync]
    by_cases h0 : self.runtime_ = 0
    · simp [h0, noexcept]
    · simp only [ne_eq, h0, not_false_eq_true, if_true]
      cases func self.runtime_ s <;> simp [noexcept]
  · intro h0
    simp [SyncCallInvoker.invokeAsync, h0, noexcept]
  · intro s1 h0 hf
    simp [SyncCallInvoker.invokeAsync, h0, hf, noexcept]
  · intro e s1 h0 hf
    simp [SyncCallInvoker.invokeAsync, h0, hf, noexcept]

/-- Witness for C9 (amended): a recording closure returns, so `invokeAsync`
on the runtime at address `7` returns in the state the closure left. -/
theorem invokeAsync_never_throws_witness :
    (SyncCallInvoker.mk 7).invokeAsync recordClosure Probe.empty
      = Outcome.ret () { installs := [], cleanups := [], closures := [7] } :=
  (invokeAsync_never_throws (SyncCallInvoker.mk 7) recordClosure Probe.empty).2.2.1
    { installs := [], cleanups := [], closures := [7] } (by decide) (by rfl)

/-! ## The adapter handed to the extension -/

/-- C10: on a non-null runtime pointer, what install does to the extension
and returns to the host is the extension's install routine run on that runtime
and on the invoker `SyncCallInvoker(runtime)`; and every closure submitted to
that invoker, by any of its three methods, is run on that same runtime (behind
a `noexcept` boundary for the two `invokeAsync` overloads). -/
theorem install_adapter_bound {σ : Type} (ptrBits : Nat) (controller : Controller σ)
    (jsiPtr : Int) (w : World σ) (h : reinterpretCast ptrBits jsiPtr ≠ 0) :
    (Java_com_cartridge_controller_ControllerModule_nativeInstallRustCrate ptrBits controller
        jsiPtr w).observe
      = (controller.installRustCrate (reinterpretCast ptrBits jsiPtr)
          (SyncCallInvoker.mk (reinterpretCast ptrBits jsiPtr)).toCallInvoker w.ext).map
          (fun r => decide (r % 256 ≠ 0)) ∧
    ∀ (func : CallFunc σ) (s : σ) (priority : SchedulerPriority),
      (SyncCallInvoker.mk (reinterpretCast ptrBits jsiPtr)).toCallInvoker.invokeSync func s
        = func (reinterpretCast ptrBits jsiPtr) s ∧
      (SyncCallInvoker.mk (reinterpretCast ptrBits jsiPtr)).toCallInvoker.invokeAsync func s
        = noexcept (func (reinterpretCast ptrBits jsiPtr) s) ∧
      (SyncCallInvoker.mk (reinterpretCast ptrBits jsiPtr)).toCallInvoker.invokeAsyncPriority
          priority func s
        = noexcept (func (reinterpretCast ptrBits jsiPtr) s) := by
  constructor
  · simp only [Java_com_cartridge_controller_ControllerModule_nativeInstallRustCrate, if_neg h,
      World.call, LOGD, android_log_print, JNI_TRUE, JNI_FALSE]
    cases controller.installRustCrate (reinterpretCast ptrBits jsiPtr)
        (SyncCallInvoker.mk (reinterpretCast ptrBits jsiPtr)).toCallInvoker w.ext <;>
      simp [Outcome.bind, Outcome.observe, Outcome.map]
  · intro func s priority
    simp [SyncCallInvoker.toCallInvoker, SyncCallInvoker.invokeSync,
      SyncCallInvoker.invokeAsync, SyncCallInvoker.invokeAsyncPriority, h]

/-- Witness for C10: the recording extension submits one closure through each
method of the invoker it is given; after install on the runtime at address
`4096` all three have run against `4096`. -/
theorem install_adapter_bound_witness :
    reinterpretCast 64 4096 ≠ 0 ∧
    (Java_com_cartridge_controller_ControllerModule_nativeInstallRustCrate 64 (probeController 1)
        4096 { logcat := [], ext := Probe.empty }).observe
      = Outcome.ret true
          { installs := [4096], cleanups := [], closures := [4096, 4096, 4096] } :=
  ⟨by decide,
   (install_adapter_bound 64 (probeController 1) 4096 { logcat := [], ext := Probe.empty }
      (by decide)).1.trans (by rfl)⟩

end ControllerAdapter
